import Mathlib

/-!
Shallow embedding of the Dart VM OS-thread layer, from
runtime/vm/os_thread_win.cc and runtime/vm/os_thread_absl.cc.

Modelling conventions:
- Machine words (uword, TLS keys, function pointers, handles, uint32 thread
  ids) are Nat; a null pointer or null value is 0 where it matters, and a
  nullable function pointer is Option Nat (none = nullptr).
- FATAL aborts and debug ASSERT failures are modelled by Option results:
  none means the process aborted or an assertion fired; some r means the
  operation completed with result r.
- OS calls whose outcome the code branches on (thread creation, priority
  setting, signal-mask manipulation) are inputs to the model: the embedding
  is a function of the OS's responses.
- Debug (ASSERT-checking) semantics are modelled throughout.
-/

namespace Dart

/-- The transient heap package built by OSThread::Start and consumed by the
trampoline (class ThreadStartData in both files): a name pointer, the entry
function pointer, and the opaque word-sized parameter. -/
structure ThreadStartData where
  name : Nat
  function : Nat
  parameter : Nat
deriving DecidableEq, Repr

/-- Observable outcome of one call to OSThread::Start: the returned status
code, whether a native thread was created, whether the ThreadStartData
package was heap-allocated during the call, and whether Start itself freed
that package before returning. -/
structure StartResult where
  ret : Nat
  threadCreated : Bool
  packageAllocated : Bool
  packageFreedInStart : Bool
deriving DecidableEq, Repr

/-- Observable outcome of one run of the thread-start trampoline
(ThreadEntry in os_thread_win.cc, ThreadStart in os_thread_absl.cc):
whether the package was freed, the (function, parameter) pair handed to the
entry point if it was invoked, and the value returned to the OS (0 on the
Windows variant, nullptr modelled as 0 on the pthread variant). -/
structure TrampolineRun where
  packageFreed : Bool
  entryInvoked : Option (Nat × Nat)
  ret : Nat
deriving DecidableEq, Repr

namespace ThreadLocalData

/-- One registry record (class ThreadLocalEntry): a TLS key handle paired
with the non-null destructor registered for it. -/
structure ThreadLocalEntry where
  key : Nat
  destructor : Nat
deriving DecidableEq, Repr

/-- ThreadLocalData::AddThreadLocal (os_thread_win.cc lines 227-244), on an
initialized registry. A null destructor returns at once without touching
the list. Otherwise the DEBUG loop asserts the key is not already present
(none = assertion failure) and the entry is appended. -/
def AddThreadLocal (locals : List ThreadLocalEntry) (key : Nat)
    (destructor : Option Nat) : Option (List ThreadLocalEntry) :=
  match destructor with
  | none => some locals
  | some d =>
    if locals.any (fun entry => entry.key == key) then none
    else some (locals ++ [⟨key, d⟩])

/-- ThreadLocalData::RemoveThreadLocal (os_thread_win.cc lines 246-261), on
an initialized registry: linear scan for the first index holding the key;
if the scan runs off the end the list is returned unchanged (silent no-op),
otherwise that index is removed. -/
def RemoveThreadLocal (locals : List ThreadLocalEntry) (key : Nat) :
    List ThreadLocalEntry :=
  let i := locals.findIdx (fun entry => entry.key == key)
  if i == locals.length then locals else locals.eraseIdx i

/-- The two process-wide registry globals of ThreadLocalData
(os_thread_win.cc lines 283-285): whether mutex_ is non-null, and
thread_locals_ as none (null pointer) or some list. -/
structure TLDState where
  mutexAllocated : Bool
  threadLocals : Option (List ThreadLocalEntry)
deriving DecidableEq, Repr

/-- Observable outcome of one destructor sweep: whether the guard mutex was
acquired, and the ordered list of destructor invocations, each recorded as
(destructor pointer, TLS value it was called with). -/
structure DestructorRun where
  lockTaken : Bool
  invocations : List (Nat × Nat)
deriving DecidableEq, Repr

/-- ThreadLocalData::RunDestructors (os_thread_win.cc lines 263-281).
If thread_locals_ is null it returns immediately, before the mutex assert
and before taking the lock. Otherwise ASSERT(mutex_ != nullptr) (none on
failure), the lock is taken, and each entry in list order has its
destructor invoked with the calling thread's current TLS value for that
key (tls models OSThread::GetThreadLocal on the exiting thread). -/
def RunDestructors (s : TLDState) (tls : Nat → Nat) : Option DestructorRun :=
  match s.threadLocals with
  | none => some { lockTaken := false, invocations := [] }
  | some locals =>
    if s.mutexAllocated then
      some { lockTaken := true,
             invocations := locals.map (fun entry => (entry.destructor, tls entry.key)) }
    else none

/-- ThreadLocalData::Init (os_thread_win.cc lines 287-290): allocates the
mutex and an empty entry array. -/
def Init : TLDState :=
  { mutexAllocated := true, threadLocals := some [] }

/-- ThreadLocalData::Cleanup (os_thread_win.cc lines 292-301): deletes and
nulls each of the two globals that is currently non-null. -/
def Cleanup (s : TLDState) : TLDState :=
  let s1 := if s.mutexAllocated then { s with mutexAllocated := false } else s
  if s1.threadLocals.isSome then { s1 with threadLocals := none } else s1

end ThreadLocalData

namespace OsThreadWin

/-- The two outcomes the Windows Start branches on: _beginthreadex returned
0 or -1 with errno set (fail), or returned a usable nonzero handle (ok). -/
inductive BeginThreadexResult where
  | fail (errnoValue : Nat)
  | ok (handle : Nat)
deriving DecidableEq, Repr

/-- OSThread::Start (os_thread_win.cc lines 82-100): allocates the
ThreadStartData package, calls _beginthreadex with the trampoline and the
package. On failure it returns errno; nothing frees the package. On
success it closes the handle and returns 0; the package is owned by the
new thread from then on. -/
def Start (os : BeginThreadexResult) : StartResult :=
  match os with
  | .fail e =>
    { ret := e, threadCreated := false,
      packageAllocated := true, packageFreedInStart := false }
  | .ok _handle =>
    { ret := 0, threadCreated := true,
      packageAllocated := true, packageFreedInStart := false }

/-- ThreadEntry (os_thread_win.cc lines 53-80), the Windows trampoline.
priorityFlag models FLAG_worker_thread_priority with none for the kMinInt
sentinel; setPriorityOk models the SetThreadPriority call succeeding (its
failure is FATAL, modelled none). Then the package fields are read and the
package deleted; CreateOSThread is modelled by osThread (none = nullptr):
only when it yields an object is the entry function invoked with the
packaged parameter. The trampoline returns 0 either way. -/
def ThreadEntry (priorityFlag : Option Int) (setPriorityOk : Bool)
    (data : ThreadStartData) (osThread : Option Unit) : Option TrampolineRun :=
  if priorityFlag.isSome && !setPriorityOk then none
  else
    some { packageFreed := true,
           entryInvoked :=
             match osThread with
             | some _ => some (data.function, data.parameter)
             | none => none,
           ret := 0 }

/-- The 32-bit Windows thread id (a DWORD) cast to intptr_t of bit width w
(OSThread::ThreadIdToIntPtr, os_thread_win.cc lines 168-171): two's
complement reinterpretation of the unsigned value. -/
def ThreadIdToIntPtr (w : Nat) (id : Nat) : Int :=
  if id % 2 ^ w < 2 ^ (w - 1) then ((id % 2 ^ w : Nat) : Int)
  else ((id % 2 ^ w : Nat) : Int) - (2 : Int) ^ w

/-- intptr_t cast back to the 32-bit DWORD thread id
(OSThread::ThreadIdFromIntPtr, os_thread_win.cc lines 173-175): truncation
to the low 32 bits. -/
def ThreadIdFromIntPtr (x : Int) : Nat :=
  (x % (2 : Int) ^ 32).toNat

end OsThreadWin

namespace OsThreadAbsl

/-- The return codes of the four pthread calls made by the pthread-based
Start, in call order; 0 is success, nonzero is the error code the call
returned. -/
structure PthreadOS where
  attrInit : Nat
  attrSetstacksize : Nat
  create : Nat
  attrDestroy : Nat
deriving DecidableEq, Repr

/-- OSThread::Start (os_thread_absl.cc lines 126-146): attr init and
stack-size setting happen before the ThreadStartData package exists, so
their failures return with no allocation. The package is then allocated
and pthread_create called; on its failure the error code is returned with
the package still allocated (nothing frees it). After a successful create,
a pthread_attr_destroy failure also returns its nonzero code, although the
thread exists by then. Otherwise Start returns 0. -/
def Start (os : PthreadOS) : StartResult :=
  if os.attrInit ≠ 0 then
    { ret := os.attrInit, threadCreated := false,
      packageAllocated := false, packageFreedInStart := false }
  else if os.attrSetstacksize ≠ 0 then
    { ret := os.attrSetstacksize, threadCreated := false,
      packageAllocated := false, packageFreedInStart := false }
  else if os.create ≠ 0 then
    { ret := os.create, threadCreated := false,
      packageAllocated := true, packageFreedInStart := false }
  else if os.attrDestroy ≠ 0 then
    { ret := os.attrDestroy, threadCreated := true,
      packageAllocated := true, packageFreedInStart := false }
  else
    { ret := 0, threadCreated := true,
      packageAllocated := true, packageFreedInStart := false }

/-- ThreadStart (os_thread_absl.cc lines 70-124), the pthread trampoline.
As in the Windows variant: configured-priority setting failure is FATAL
(none); the package is read and deleted; the thread name is set (no
observable effect modelled); if CreateOSThread yields an object,
UnblockSIGPROF runs (its pthread_sigmask result is ASSERTed zero, modelled
by sigprofUnblockOk) and then the entry function is invoked with the
packaged parameter; with no object the thread returns nullptr (ret 0)
without running user work. -/
def ThreadStart (priorityFlag : Option Int) (setPriorityOk : Bool)
    (data : ThreadStartData) (osThread : Option Unit)
    (sigprofUnblockOk : Bool) : Option TrampolineRun :=
  if priorityFlag.isSome && !setPriorityOk then none
  else
    match osThread with
    | none => some { packageFreed := true, entryInvoked := none, ret := 0 }
    | some _ =>
      if !sigprofUnblockOk then none
      else some { packageFreed := true,
                  entryInvoked := some (data.function, data.parameter),
                  ret := 0 }

/-- The word-sized pthread_t / mach port thread id cast to intptr_t of the
same bit width w (OSThread::ThreadIdToIntPtr, os_thread_absl.cc lines
224-231): two's complement reinterpretation of the unsigned value. -/
def ThreadIdToIntPtr (w : Nat) (id : Nat) : Int :=
  if id % 2 ^ w < 2 ^ (w - 1) then ((id % 2 ^ w : Nat) : Int)
  else ((id % 2 ^ w : Nat) : Int) - (2 : Int) ^ w

/-- intptr_t cast back to the word-sized thread id
(OSThread::ThreadIdFromIntPtr, os_thread_absl.cc lines 233-239):
truncation to the low w bits. -/
def ThreadIdFromIntPtr (w : Nat) (x : Int) : Nat :=
  (x % (2 : Int) ^ w).toNat

end OsThreadAbsl

/-- Windows loader notification code for process detach. -/
def DLL_PROCESS_DETACH : Nat := 0

/-- Windows loader notification code for thread detach. -/
def DLL_THREAD_DETACH : Nat := 3

/-- OnDartThreadExit (os_thread_win.cc lines 332-341), the loader-invoked
exit hook. runTlsDestructors models private_flag_windows_run_tls_destructors;
when it is false the hook returns immediately. Otherwise only the two
detach reasons delegate to RunDestructors; attach reasons do nothing. -/
def OnDartThreadExit (runTlsDestructors : Bool) (reason : Nat)
    (s : ThreadLocalData.TLDState) (tls : Nat → Nat) :
    Option ThreadLocalData.DestructorRun :=
  if !runTlsDestructors then some { lockTaken := false, invocations := [] }
  else if reason == DLL_THREAD_DETACH || reason == DLL_PROCESS_DETACH then
    ThreadLocalData.RunDestructors s tls
  else some { lockTaken := false, invocations := [] }

namespace OsThreadWin

/-- TLS_OUT_OF_INDEXES, the kUnsetThreadLocalKey sentinel on Windows. -/
def kUnsetThreadLocalKey : Nat := 4294967295

/-- OSThread::CreateThreadLocal (os_thread_win.cc lines 104-111), on an
initialized registry. tlsAllocKey is the key TlsAlloc handed back; if it is
the out-of-indexes sentinel the call is FATAL (none). Otherwise the key and
destructor are registered through AddThreadLocal (whose debug duplicate
assert can also fail) and the key is returned with the new registry list. -/
def CreateThreadLocal (tlsAllocKey : Nat)
    (locals : List ThreadLocalData.ThreadLocalEntry)
    (destructor : Option Nat) : Option (Nat × List ThreadLocalData.ThreadLocalEntry) :=
  if tlsAllocKey == kUnsetThreadLocalKey then none
  else
    match ThreadLocalData.AddThreadLocal locals tlsAllocKey destructor with
    | none => none
    | some locals1 => some (tlsAllocKey, locals1)

/-- OSThread::DeleteThreadLocal (os_thread_win.cc lines 113-120), on an
initialized registry: ASSERT the key is not the unset sentinel (none on
failure), FATAL if TlsFree failed (tlsFreeOk models its result), then
removal from the registry list via RemoveThreadLocal. -/
def DeleteThreadLocal (tlsFreeOk : Bool)
    (locals : List ThreadLocalData.ThreadLocalEntry)
    (key : Nat) : Option (List ThreadLocalData.ThreadLocalEntry) :=
  if key == kUnsetThreadLocalKey then none
  else if !tlsFreeOk then none
  else some (ThreadLocalData.RemoveThreadLocal locals key)

end OsThreadWin

namespace ThreadLocalData

/-- One registry-mutating operation: a key registration attempt (as issued
by OSThread::CreateThreadLocal) or a key removal (as issued by
OSThread::DeleteThreadLocal). -/
inductive RegOp where
  | add (key : Nat) (destructor : Option Nat)
  | remove (key : Nat)
deriving DecidableEq, Repr

/-- Effect of one RegOp on an initialized registry list, with none for an
assertion failure. -/
def applyOp (locals : List ThreadLocalEntry) : RegOp → Option (List ThreadLocalEntry)
  | .add key destructor => AddThreadLocal locals key destructor
  | .remove key => some (RemoveThreadLocal locals key)

/-- Effect of a sequence of RegOps, stopping at the first assertion
failure. -/
def applyOps (locals : List ThreadLocalEntry) : List RegOp → Option (List ThreadLocalEntry)
  | [] => some locals
  | op :: rest =>
    match applyOp locals op with
    | none => none
    | some locals1 => applyOps locals1 rest

end ThreadLocalData

/-! Helper lemmas. -/

/-- A key absent from the registry makes the removal scan run off the end:
findIdx returns the length. -/
theorem findIdx_key_eq_length (locals : List ThreadLocalData.ThreadLocalEntry)
    (key : Nat) (h : key ∉ locals.map ThreadLocalData.ThreadLocalEntry.key) :
    locals.findIdx (fun entry => entry.key == key) = locals.length := by
  induction locals with
  | nil => rfl
  | cons entry rest ih =>
    simp only [List.map_cons, List.mem_cons, not_or] at h
    rw [List.findIdx_cons]
    have hne : (entry.key == key) = false := by
      simp only [beq_eq_false_iff_ne, ne_eq]
      exact fun he => h.1 he.symm
    rw [hne]
    simp [ih h.2]

/-- Removing a key from a registry list that does not hold it is the
identity. -/
theorem RemoveThreadLocal_not_mem (locals : List ThreadLocalData.ThreadLocalEntry)
    (key : Nat) (h : key ∉ locals.map ThreadLocalData.ThreadLocalEntry.key) :
    ThreadLocalData.RemoveThreadLocal locals key = locals := by
  unfold ThreadLocalData.RemoveThreadLocal
  rw [findIdx_key_eq_length locals key h]
  simp

/-- A successful AddThreadLocal preserves distinctness of registry keys. -/
theorem AddThreadLocal_preserves_nodup
    {locals locals1 : List ThreadLocalData.ThreadLocalEntry} {key : Nat}
    {destructor : Option Nat}
    (hnd : (locals.map ThreadLocalData.ThreadLocalEntry.key).Nodup)
    (happ : ThreadLocalData.AddThreadLocal locals key destructor = some locals1) :
    (locals1.map ThreadLocalData.ThreadLocalEntry.key).Nodup := by
  cases destructor with
  | none =>
    simp only [ThreadLocalData.AddThreadLocal, Option.some.injEq] at happ
    exact happ ▸ hnd
  | some d =>
    simp only [ThreadLocalData.AddThreadLocal] at happ
    by_cases hdup : locals.any (fun entry => entry.key == key) = true
    · rw [if_pos hdup] at happ
      exact absurd happ (by simp)
    · rw [if_neg hdup] at happ
      have hnotin : key ∉ locals.map ThreadLocalData.ThreadLocalEntry.key := by
        intro hmem
        apply hdup
        rcases List.mem_map.mp hmem with ⟨entry, hentry, hkey⟩
        exact List.any_eq_true.mpr ⟨entry, hentry, by simp [hkey]⟩
      obtain rfl : locals ++ [⟨key, d⟩] = locals1 := by
        simpa using happ
      simp [List.nodup_append, hnd, List.disjoint_singleton, hnotin]

/-- RemoveThreadLocal preserves distinctness of registry keys. -/
theorem RemoveThreadLocal_preserves_nodup
    {locals : List ThreadLocalData.ThreadLocalEntry} {key : Nat}
    (hnd : (locals.map ThreadLocalData.ThreadLocalEntry.key).Nodup) :
    ((ThreadLocalData.RemoveThreadLocal locals key).map
      ThreadLocalData.ThreadLocalEntry.key).Nodup := by
  unfold ThreadLocalData.RemoveThreadLocal
  by_cases h : (locals.findIdx (fun entry => entry.key == key) == locals.length) = true
  · simpa [h] using hnd
  · simp only [h]
    exact ((List.eraseIdx_sublist locals _).map
      ThreadLocalData.ThreadLocalEntry.key).nodup hnd

/-- Any run of registry operations from a keyset-distinct list keeps the
keys distinct. -/
theorem applyOps_preserves_nodup
    (ops : List ThreadLocalData.RegOp) :
    ∀ locals locals1 : List ThreadLocalData.ThreadLocalEntry,
      (locals.map ThreadLocalData.ThreadLocalEntry.key).Nodup →
      ThreadLocalData.applyOps locals ops = some locals1 →
      (locals1.map ThreadLocalData.ThreadLocalEntry.key).Nodup := by
  induction ops with
  | nil =>
    intro locals locals1 hnd happ
    simp only [ThreadLocalData.applyOps, Option.some.injEq] at happ
    exact happ ▸ hnd
  | cons op rest ih =>
    intro locals locals1 hnd happ
    simp only [ThreadLocalData.applyOps] at happ
    cases hop : ThreadLocalData.applyOp locals op with
    | none => rw [hop] at happ; exact absurd happ (by simp)
    | some locals2 =>
      rw [hop] at happ
      refine ih locals2 locals1 ?_ happ
      cases op with
      | add key destructor => exact AddThreadLocal_preserves_nodup hnd hop
      | remove key =>
        simp only [ThreadLocalData.applyOp, Option.some.injEq] at hop
        exact hop ▸ RemoveThreadLocal_preserves_nodup hnd

/-! Claim theorems. -/

/-- C2: with the run-destructors flag true and a detach reason, the exit
hook takes the registry lock and invokes, for each entry registered in the
initialized Thread-Local Registry, that entry's destructor exactly once
with the calling thread's current TLS value for that entry's key, in
registry insertion order (the invocation list is exactly the entry list
mapped in order), regardless of whether the stored value is null. -/
theorem c2_detach_runs_destructors_in_order
    (locals : List ThreadLocalData.ThreadLocalEntry) (tls : Nat → Nat)
    (reason : Nat)
    (hreason : reason = DLL_THREAD_DETACH ∨ reason = DLL_PROCESS_DETACH) :
    OnDartThreadExit true reason ⟨true, some locals⟩ tls =
      some ⟨true, locals.map (fun entry => (entry.destructor, tls entry.key))⟩ := by
  rcases hreason with h | h <;> subst h <;> rfl

/-- Witness for C2 at a concrete registry, TLS assignment and the
thread-detach reason; the second key maps to value 0 (null) and its
destructor is still invoked. -/
theorem c2_witness :
    OnDartThreadExit true DLL_THREAD_DETACH ⟨true, some [⟨1, 10⟩, ⟨2, 20⟩]⟩
      (fun key => if key = 1 then 7 else 0) = some ⟨true, [(10, 7), (20, 0)]⟩ := by
  have h := c2_detach_runs_destructors_in_order [⟨1, 10⟩, ⟨2, 20⟩]
    (fun key => if key = 1 then 7 else 0) DLL_THREAD_DETACH (Or.inl rfl)
  simpa using h

/-- C4: with the run-destructors flag false, the exit hook is a complete
no-op for every detach reason, registry state and TLS contents: no lock is
taken and no destructor is invoked. -/
theorem c4_suppressed_hook_is_noop (reason : Nat)
    (s : ThreadLocalData.TLDState) (tls : Nat → Nat) :
    OnDartThreadExit false reason s tls = some ⟨false, []⟩ := rfl

/-- C5: with thread_locals_ null (registry never initialized, or torn down),
RunDestructors returns successfully without taking the lock and without
invoking any destructor, whatever the mutex global and TLS hold. -/
theorem c5_uninitialized_registry_sweep_noop (mutexAllocated : Bool)
    (tls : Nat → Nat) :
    ThreadLocalData.RunDestructors ⟨mutexAllocated, none⟩ tls =
      some ⟨false, []⟩ := rfl

/-- C7: a key created with a null destructor is never registered, and its
deletion is assertion-free and leaves the registry list (hence its length)
unchanged: CreateThreadLocal with destructor none returns the key and the
unchanged list, DeleteThreadLocal succeeds returning the unchanged list,
and the underlying RemoveThreadLocal is the identity on a list not holding
the key. -/
theorem c7_null_destructor_key_delete_noop
    (locals : List ThreadLocalData.ThreadLocalEntry) (key : Nat)
    (hkey : key ≠ OsThreadWin.kUnsetThreadLocalKey)
    (habsent : key ∉ locals.map ThreadLocalData.ThreadLocalEntry.key) :
    OsThreadWin.CreateThreadLocal key locals none = some (key, locals) ∧
    OsThreadWin.DeleteThreadLocal true locals key = some locals ∧
    ThreadLocalData.RemoveThreadLocal locals key = locals := by
  refine ⟨?_, ?_, ?_⟩
  · simp [OsThreadWin.CreateThreadLocal, ThreadLocalData.AddThreadLocal, hkey]
  · simp [OsThreadWin.DeleteThreadLocal, hkey,
      RemoveThreadLocal_not_mem locals key habsent]
  · exact RemoveThreadLocal_not_mem locals key habsent

/-- Witness for C7: key 9 absent from a one-entry registry. -/
theorem c7_witness :
    OsThreadWin.CreateThreadLocal 9 [⟨5, 77⟩] none = some (9, [⟨5, 77⟩]) ∧
    OsThreadWin.DeleteThreadLocal true [⟨5, 77⟩] 9 = some [⟨5, 77⟩] ∧
    ThreadLocalData.RemoveThreadLocal [⟨5, 77⟩] 9 = [⟨5, 77⟩] :=
  c7_null_destructor_key_delete_noop [⟨5, 77⟩] 9 (by decide) (by decide)

/-- C10: Cleanup is idempotent and restores the uninitialized state: both
registry globals are null after it, and a subsequent RunDestructors is a
lock-free, destructor-free no-op. -/
theorem c10_cleanup_idempotent_resets (s : ThreadLocalData.TLDState)
    (tls : Nat → Nat) :
    ThreadLocalData.Cleanup (ThreadLocalData.Cleanup s) =
      ThreadLocalData.Cleanup s ∧
    (ThreadLocalData.Cleanup s).mutexAllocated = false ∧
    (ThreadLocalData.Cleanup s).threadLocals = none ∧
    ThreadLocalData.RunDestructors (ThreadLocalData.Cleanup s) tls =
      some ⟨false, []⟩ := by
  obtain ⟨m, l⟩ := s
  cases m <;> cases l <;>
    simp [ThreadLocalData.Cleanup, ThreadLocalData.RunDestructors]

/-- C8: every registry state reachable from the empty registry by a
sequence of (assertion-passing) AddThreadLocal and RemoveThreadLocal calls
has pairwise-distinct keys, and attempting to add an already-present key
with a non-null destructor fails the debug assertion. -/
theorem c8_registry_keys_pairwise_distinct :
    (∀ (ops : List ThreadLocalData.RegOp)
        (locals : List ThreadLocalData.ThreadLocalEntry),
      ThreadLocalData.applyOps [] ops = some locals →
      (locals.map ThreadLocalData.ThreadLocalEntry.key).Nodup) ∧
    (∀ (locals : List ThreadLocalData.ThreadLocalEntry) (key d : Nat),
      key ∈ locals.map ThreadLocalData.ThreadLocalEntry.key →
      ThreadLocalData.AddThreadLocal locals key (some d) = none) := by
  constructor
  · intro ops locals happ
    exact applyOps_preserves_nodup ops [] locals (by simp) happ
  · intro locals key d hmem
    have hany : locals.any (fun entry => entry.key == key) = true := by
      rcases List.mem_map.mp hmem with ⟨entry, hentry, hkey⟩
      exact List.any_eq_true.mpr ⟨entry, hentry, by simp [hkey]⟩
    simp [ThreadLocalData.AddThreadLocal, hany]

/-- Witness for C8: a two-registration run yields distinct keys, and
re-adding key 1 to a registry already holding it fails the assertion. -/
theorem c8_witness :
    (([⟨1, 7⟩, ⟨2, 8⟩] : List ThreadLocalData.ThreadLocalEntry).map
      ThreadLocalData.ThreadLocalEntry.key).Nodup ∧
    ThreadLocalData.AddThreadLocal [⟨1, 7⟩] 1 (some 9) = none :=
  ⟨c8_registry_keys_pairwise_distinct.1
      [.add 1 (some 7), .add 2 (some 8)] [⟨1, 7⟩, ⟨2, 8⟩] (by decide),
   c8_registry_keys_pairwise_distinct.2 [⟨1, 7⟩] 1 9 (by decide)⟩

/-- C6: in both trampolines, when per-thread object construction yields no
object, the caller's entry function is never invoked and the thread
returns 0 (the success exit value, no error status), having still freed
the start package; the priority hypothesis only rules out the unrelated
fatal-priority abort at the top of the trampoline. -/
theorem c6_null_osthread_skips_entry (priorityFlag : Option Int)
    (setPriorityOk : Bool) (data : ThreadStartData) (sigprofUnblockOk : Bool)
    (hpriority : priorityFlag = none ∨ setPriorityOk = true) :
    OsThreadWin.ThreadEntry priorityFlag setPriorityOk data none =
      some ⟨true, none, 0⟩ ∧
    OsThreadAbsl.ThreadStart priorityFlag setPriorityOk data none
      sigprofUnblockOk = some ⟨true, none, 0⟩ := by
  rcases hpriority with h | h <;> subst h <;>
    simp [OsThreadWin.ThreadEntry, OsThreadAbsl.ThreadStart]

/-- Witness for C6 at a configured priority that sets successfully, with a
concrete package. -/
theorem c6_witness :
    OsThreadWin.ThreadEntry (some 5) true ⟨1, 2, 3⟩ none =
      some ⟨true, none, 0⟩ ∧
    OsThreadAbsl.ThreadStart (some 5) true ⟨1, 2, 3⟩ none false =
      some ⟨true, none, 0⟩ :=
  c6_null_osthread_skips_entry (some 5) true ⟨1, 2, 3⟩ false (Or.inr rfl)

/-- C1 counterexample: on the pthread variant, when pthread_attr_init,
pthread_attr_setstacksize and pthread_create all succeed but
pthread_attr_destroy fails with error 22, Start returns the non-zero code
22 even though a native thread was created (and will run the entry
function), refuting that a non-zero return implies no thread was created
and the entry is never invoked. -/
theorem c1_counterexample :
    (OsThreadAbsl.Start ⟨0, 0, 0, 22⟩).ret ≠ 0 ∧
    (OsThreadAbsl.Start ⟨0, 0, 0, 22⟩).threadCreated = true := by decide

/-- C1 (amended): on the Windows variant, Start returns errno (non-zero
for valid OS behavior) with no thread created on the failure branch, and
returns 0 with a thread created on the success branch; on the pthread
variant, a zero return implies a thread was created, no thread created
implies a non-zero return, and — provided pthread_attr_destroy succeeds —
a created thread implies a zero return; on both variants the trampoline of
a created thread (absent the unrelated fatal-priority and signal-mask
aborts, and with per-thread object construction succeeding) invokes the
entry function exactly with the packaged (function, argument) pair. -/
theorem c1_start_status_entry_contract :
    (∀ e : Nat, e ≠ 0 →
      (OsThreadWin.Start (.fail e)).ret = e ∧
      (OsThreadWin.Start (.fail e)).ret ≠ 0 ∧
      (OsThreadWin.Start (.fail e)).threadCreated = false) ∧
    (∀ handle : Nat,
      (OsThreadWin.Start (.ok handle)).ret = 0 ∧
      (OsThreadWin.Start (.ok handle)).threadCreated = true) ∧
    (∀ (priorityFlag : Option Int) (setPriorityOk : Bool)
        (data : ThreadStartData),
      priorityFlag = none ∨ setPriorityOk = true →
      OsThreadWin.ThreadEntry priorityFlag setPriorityOk data (some ()) =
        some ⟨true, some (data.function, data.parameter), 0⟩) ∧
    (∀ os : OsThreadAbsl.PthreadOS,
      (OsThreadAbsl.Start os).threadCreated = false →
      (OsThreadAbsl.Start os).ret ≠ 0) ∧
    (∀ os : OsThreadAbsl.PthreadOS,
      (OsThreadAbsl.Start os).ret = 0 →
      (OsThreadAbsl.Start os).threadCreated = true) ∧
    (∀ os : OsThreadAbsl.PthreadOS, os.attrDestroy = 0 →
      (OsThreadAbsl.Start os).threadCreated = true →
      (OsThreadAbsl.Start os).ret = 0) ∧
    (∀ (priorityFlag : Option Int) (setPriorityOk : Bool)
        (data : ThreadStartData),
      priorityFlag = none ∨ setPriorityOk = true →
      OsThreadAbsl.ThreadStart priorityFlag setPriorityOk data (some ()) true =
        some ⟨true, some (data.function, data.parameter), 0⟩) := by
  refine ⟨?_, ?_, ?_, ?_, ?_, ?_, ?_⟩
  · intro e he
    exact ⟨rfl, he, rfl⟩
  · intro handle
    exact ⟨rfl, rfl⟩
  · intro priorityFlag setPriorityOk data h
    rcases h with h | h <;> subst h <;> simp [OsThreadWin.ThreadEntry]
  · intro os
    by_cases h1 : os.attrInit = 0 <;> by_cases h2 : os.attrSetstacksize = 0 <;>
      by_cases h3 : os.create = 0 <;> by_cases h4 : os.attrDestroy = 0 <;>
      simp [OsThreadAbsl.Start, h1, h2, h3, h4]
  · intro os
    by_cases h1 : os.attrInit = 0 <;> by_cases h2 : os.attrSetstacksize = 0 <;>
      by_cases h3 : os.create = 0 <;> by_cases h4 : os.attrDestroy = 0 <;>
      simp [OsThreadAbsl.Start, h1, h2, h3, h4]
  · intro os h4
    by_cases h1 : os.attrInit = 0 <;> by_cases h2 : os.attrSetstacksize = 0 <;>
      by_cases h3 : os.create = 0 <;>
      simp [OsThreadAbsl.Start, h1, h2, h3, h4]
  · intro priorityFlag setPriorityOk data h
    rcases h with h | h <;> subst h <;> simp [OsThreadAbsl.ThreadStart]

/-- Witness for C1 at concrete OS outcomes: a failed Windows create with
errno 12, a successful Windows trampoline run invoking entry (2, 3), a
pthread create failure with code 11, and a successful pthread trampoline
run invoking entry (2, 3). -/
theorem c1_witness :
    (OsThreadWin.Start (.fail 12)).ret ≠ 0 ∧
    OsThreadWin.ThreadEntry none true ⟨1, 2, 3⟩ (some ()) =
      some ⟨true, some (2, 3), 0⟩ ∧
    (OsThreadAbsl.Start ⟨0, 0, 11, 0⟩).ret ≠ 0 ∧
    OsThreadAbsl.ThreadStart none true ⟨1, 2, 3⟩ (some ()) true =
      some ⟨true, some (2, 3), 0⟩ :=
  ⟨(c1_start_status_entry_contract.1 12 (by decide)).2.1,
   c1_start_status_entry_contract.2.2.1 none true ⟨1, 2, 3⟩ (Or.inl rfl),
   c1_start_status_entry_contract.2.2.2.1 ⟨0, 0, 11, 0⟩ (by decide),
   c1_start_status_entry_contract.2.2.2.2.2.2 none true ⟨1, 2, 3⟩ (Or.inl rfl)⟩

/-- C3 counterexample: when _beginthreadex rejects the creation with errno
12, the Windows Start returns with the ThreadStartData package allocated
and not freed — the failure path leaks the package rather than releasing
it before returning. -/
theorem c3_counterexample :
    (OsThreadWin.Start (.fail 12)).ret ≠ 0 ∧
    (OsThreadWin.Start (.fail 12)).packageAllocated = true ∧
    (OsThreadWin.Start (.fail 12)).packageFreedInStart = false := by decide

/-- C3 (amended): neither variant of Start ever frees the ThreadStartData
package itself — in particular the failure paths leave an allocated
package unfreed (a leak) rather than releasing it — and every completed
trampoline run, on either variant, frees the package exactly there. -/
theorem c3_package_ownership :
    (∀ os, (OsThreadWin.Start os).packageFreedInStart = false) ∧
    (∀ os, (OsThreadAbsl.Start os).packageFreedInStart = false) ∧
    (∀ (priorityFlag : Option Int) (setPriorityOk : Bool)
        (data : ThreadStartData) (osThread : Option Unit) (r : TrampolineRun),
      OsThreadWin.ThreadEntry priorityFlag setPriorityOk data osThread =
        some r → r.packageFreed = true) ∧
    (∀ (priorityFlag : Option Int) (setPriorityOk : Bool)
        (data : ThreadStartData) (osThread : Option Unit)
        (sigprofUnblockOk : Bool) (r : TrampolineRun),
      OsThreadAbsl.ThreadStart priorityFlag setPriorityOk data osThread
        sigprofUnblockOk = some r → r.packageFreed = true) := by
  refine ⟨?_, ?_, ?_, ?_⟩
  · intro os
    cases os <;> rfl
  · intro os
    by_cases h1 : os.attrInit = 0 <;> by_cases h2 : os.attrSetstacksize = 0 <;>
      by_cases h3 : os.create = 0 <;> by_cases h4 : os.attrDestroy = 0 <;>
      simp [OsThreadAbsl.Start, h1, h2, h3, h4]
  · intro priorityFlag setPriorityOk data osThread r h
    unfold OsThreadWin.ThreadEntry at h
    by_cases hc : (priorityFlag.isSome && !setPriorityOk) = true
    · rw [if_pos hc] at h
      exact absurd h (by simp)
    · rw [if_neg hc] at h
      obtain rfl : _ = r := Option.some.inj h
      rfl
  · intro priorityFlag setPriorityOk data osThread sigprofUnblockOk r h
    unfold OsThreadAbsl.ThreadStart at h
    by_cases hc : (priorityFlag.isSome && !setPriorityOk) = true
    · rw [if_pos hc] at h
      exact absurd h (by simp)
    · rw [if_neg hc] at h
      cases osThread with
      | none =>
        obtain rfl : _ = r := Option.some.inj h
        rfl
      | some u =>
        by_cases hs : (!sigprofUnblockOk) = true
        · rw [if_pos hs] at h
          exact absurd h (by simp)
        · rw [if_neg hs] at h
          obtain rfl : _ = r := Option.some.inj h
          rfl

/-- Witness for C3 projecting the trampoline conjuncts at concrete runs. -/
theorem c3_witness :
    (OsThreadWin.Start (.ok 5)).packageFreedInStart = false ∧
    (⟨true, some (2, 3), 0⟩ : TrampolineRun).packageFreed = true ∧
    (⟨true, none, 0⟩ : TrampolineRun).packageFreed = true :=
  ⟨c3_package_ownership.1 (.ok 5),
   c3_package_ownership.2.2.1 none true ⟨1, 2, 3⟩ (some ())
     ⟨true, some (2, 3), 0⟩ (by decide),
   c3_package_ownership.2.2.2 none true ⟨1, 2, 3⟩ none true
     ⟨true, none, 0⟩ (by decide)⟩

/-- Truncating the two's-complement reinterpretation of an unsigned k-bit
value (widened to w bits, k ≤ w) back to k bits recovers the value. -/
theorem twos_complement_roundtrip (w k n : Nat) (hw : 0 < w) (hk : k ≤ w)
    (hn : n < 2 ^ k) :
    ((OsThreadAbsl.ThreadIdToIntPtr w n) % (2 : Int) ^ k).toNat = n := by
  unfold OsThreadAbsl.ThreadIdToIntPtr
  have hnw : n < 2 ^ w := lt_of_lt_of_le hn (Nat.pow_le_pow_right (by norm_num) hk)
  rw [Nat.mod_eq_of_lt hnw]
  have hcast : ((n : Int)) < (2 : Int) ^ k := by exact_mod_cast hn
  by_cases hc : n < 2 ^ (w - 1)
  · rw [if_pos hc, Int.emod_eq_of_lt (by positivity) hcast]
    exact Int.toNat_natCast n
  · rw [if_neg hc]
    have hkw : k = w := by
      rcases Nat.lt_or_ge k w with h | h
      · exfalso
        have hle : (2 : Nat) ^ k ≤ 2 ^ (w - 1) :=
          Nat.pow_le_pow_right (by norm_num) (by omega)
        omega
      · omega
    subst hkw
    have hsub : ((n : Int) - (2 : Int) ^ k) % (2 : Int) ^ k =
        (n : Int) % (2 : Int) ^ k := by
      simp [Int.sub_emod]
    rw [hsub, Int.emod_eq_of_lt (by positivity) hcast]
    exact Int.toNat_natCast n

/-- C9: the thread-identity converter pair is a round trip on both
variants: on the Windows variant a 32-bit DWORD thread id survives the
cast to a w-bit intptr_t (32 ≤ w) and back, and on the pthread variant a
word-sized thread id survives the cast to the equally wide intptr_t and
back. -/
theorem c9_thread_id_roundtrip (w : Nat) (hw : 32 ≤ w) (id tid : Nat)
    (hid : id < 2 ^ 32) (htid : tid < 2 ^ w) :
    OsThreadWin.ThreadIdFromIntPtr (OsThreadWin.ThreadIdToIntPtr w id) = id ∧
    OsThreadAbsl.ThreadIdFromIntPtr w (OsThreadAbsl.ThreadIdToIntPtr w tid) =
      tid := by
  constructor
  · show ((OsThreadAbsl.ThreadIdToIntPtr w id) % (2 : Int) ^ 32).toNat = id
    exact twos_complement_roundtrip w 32 id (by omega) hw hid
  · exact twos_complement_roundtrip w w tid (by omega) le_rfl htid

/-- Witness for C9 on a 64-bit word: a DWORD id above 2^31 and a pthread
id above 2^63 both round-trip. -/
theorem c9_witness :
    OsThreadWin.ThreadIdFromIntPtr (OsThreadWin.ThreadIdToIntPtr 64 3000000000) =
      3000000000 ∧
    OsThreadAbsl.ThreadIdFromIntPtr 64
      (OsThreadAbsl.ThreadIdToIntPtr 64 9223372036854775813) =
      9223372036854775813 :=
  c9_thread_id_roundtrip 64 (by decide) 3000000000 9223372036854775813
    (by decide) (by decide)

end Dart
